import Mathlib

/-!
Shallow embedding of the FRC Components API authentication and
team-authorization core (src/app/auth.py, src/app/main.py, src/app/crud.py).

Modelling conventions:
* time is an absolute count of integer seconds (`Nat`);
* a JWT is a record of its claims plus the key it was signed with; the
  signature verifies exactly when the verifying key equals the signing key;
* the jose `jwt.decode` call checks the signature and the `exp` claim itself;
  its `_validate_exp` (with zero leeway) raises only when `exp < now`, so a
  token is still accepted at the instant `now = exp`;
* passlib `CryptContext(schemes=["bcrypt"]).verify` is parameterised by an
  abstract bcrypt checker; on a hash string that does not carry a bcrypt
  identifier it raises `UnknownHashError` (modelled as `Except.error`),
  mirroring passlib's documented behaviour;
* an `HTTPException` is a status code, a detail string and response headers;
  an exception that escapes every handler surfaces as a 500 response.
-/

deriving instance DecidableEq for Except

namespace FRCApi

/-- A row of the `users` table (src/app/models.py, lines 115-126). -/
structure UserRec where
  id : Nat
  username : String
  email : String
  hashed_password : String
  team_id : Option String
  role : String
  is_active : Bool
  deriving Repr, DecidableEq

/-- A row of the `team_components` table (src/app/models.py, lines 98-113). -/
structure TeamComponent where
  id : Nat
  team_id : String
  public_component_id : Option String
  name : String
  vendor : String
  quantity : Int
  location : Option String
  notes : Option String
  added_by : Option String
  image_url : Option String
  cad_file_url : Option String
  deriving Repr, DecidableEq

/-- The shared relational store, restricted to the tables this core touches. -/
structure Store where
  users : List UserRec
  team_components : List TeamComponent
  deriving Repr, DecidableEq

/-- The observable content of a FastAPI `HTTPException`. -/
structure HTTPError where
  status_code : Nat
  detail : String
  headers : List (String × String)
  deriving Repr, DecidableEq

/-- The JWT claims this system uses: the `sub` entry of the payload dict
(absent when the dict has no `sub` key) and the `exp` timestamp. -/
structure JWTClaims where
  sub : Option String
  exp : Nat
  deriving Repr, DecidableEq

/-- A signed token: its claims together with the key used to sign it.
The MAC is modelled by the key itself, so verification with key `k`
succeeds exactly when the token was signed with `k`. -/
structure JWT where
  claims : JWTClaims
  signedWith : String
  deriving Repr, DecidableEq

/-- jose `jwt.encode(claims, secret, algorithm="HS256")`. -/
def jwtEncode (claims : JWTClaims) (secret : String) : JWT :=
  ⟨claims, secret⟩

/-- jose `jwt.decode(token, secret, algorithms=["HS256"])` evaluated at
absolute time `now`: verifies the signature and rejects a token whose
`exp` has passed. jose `_validate_exp` raises `ExpiredSignatureError`
only when `exp < now` (default zero leeway), so a token is still
accepted at the instant `now = exp`; both failures raise `JWTError`,
modelled as `Except.error`. -/
def jwtDecode (token : JWT) (secret : String) (now : Nat) : Except Unit JWTClaims :=
  if token.signedWith = secret then
    if token.claims.exp < now then .error () else .ok token.claims
  else .error ()

/-- The failure passlib's `CryptContext.verify` raises on an
unrecognised hash string. -/
inductive PasslibError where
  | unknownHash
  deriving Repr, DecidableEq

/-- passlib hash identification for the configured `bcrypt` scheme:
a hash is recognised when it starts with a bcrypt identifier (the
comparison is on the character list so it reduces structurally). -/
def bcryptIdentify (hashed : String) : Bool :=
  hashed.data.take 4 == "$2b$".data || hashed.data.take 4 == "$2a$".data ||
    hashed.data.take 4 == "$2y$".data || hashed.data.take 4 == "$2x$".data

/-- passlib `CryptContext(schemes=["bcrypt"]).verify`, parameterised by an
abstract bcrypt checker: on a recognised hash it returns the checker's
verdict; on an unrecognised hash it raises `UnknownHashError`. -/
def cryptContextVerify (bcryptCheck : String → String → Bool)
    (plain hashed : String) : Except PasslibError Bool :=
  if bcryptIdentify hashed then .ok (bcryptCheck plain hashed)
  else .error PasslibError.unknownHash

/-- `verify_password` (src/app/auth.py, lines 23-24): delegates to
`pwd_context.verify`. -/
def verify_password (bcryptCheck : String → String → Bool)
    (plain_password hashed_password : String) : Except PasslibError Bool :=
  cryptContextVerify bcryptCheck plain_password hashed_password

/-- `ALGORITHM = "HS256"` (src/app/auth.py, line 16). -/
def ALGORITHM : String := "HS256"

/-- `ACCESS_TOKEN_EXPIRE_MINUTES = 30` (src/app/auth.py, line 17). -/
def ACCESS_TOKEN_EXPIRE_MINUTES : Nat := 30

/-- `create_access_token` (src/app/auth.py, lines 29-38). `expires_delta`
is the optional `timedelta` argument in seconds. The Python guard is
`if expires_delta:`, a truthiness test, so both `None` and a zero
timedelta fall through to the 15-minute default. -/
def create_access_token (secret : String) (now : Nat) (sub : Option String)
    (expires_delta : Option Nat) : JWT :=
  let expire : Nat :=
    match expires_delta with
    | some d => if d = 0 then now + 15 * 60 else now + d
    | none => now + 15 * 60
  jwtEncode ⟨sub, expire⟩ secret

/-- `get_user_by_username` (src/app/auth.py, lines 40-43): `fetch_one` on
`users` filtered by exact username match. -/
def get_user_by_username (db : Store) (username : String) : Option UserRec :=
  db.users.find? (fun u => u.username == username)

/-- `get_user_by_email` (src/app/auth.py, lines 45-48). -/
def get_user_by_email (db : Store) (email : String) : Option UserRec :=
  db.users.find? (fun u => u.email == email)

/-- `authenticate_user` (src/app/auth.py, lines 50-56): `none` models the
Python `False` return; an exception from `verify_password` propagates. -/
def authenticate_user (bcryptCheck : String → String → Bool) (db : Store)
    (username password : String) : Except PasslibError (Option UserRec) :=
  match get_user_by_username db username with
  | none => .ok none
  | some user =>
    match verify_password bcryptCheck password user.hashed_password with
    | .error e => .error e
    | .ok false => .ok none
    | .ok true => .ok (some user)

/-- The `credentials_exception` of `get_current_user`
(src/app/auth.py, lines 59-63). -/
def credentials_exception : HTTPError :=
  ⟨401, "Could not validate credentials", [("WWW-Authenticate", "Bearer")]⟩

/-- `get_current_user` (src/app/auth.py, lines 58-75): decode the token
(signature and expiry checked by the decode call), extract `sub`, and
resolve it to a user row; every failure raises `credentials_exception`. -/
def get_current_user (secret : String) (now : Nat) (db : Store) (token : JWT) :
    Except HTTPError UserRec :=
  match jwtDecode token secret now with
  | .error _ => .error credentials_exception
  | .ok payload =>
    match payload.sub with
    | none => .error credentials_exception
    | some username =>
      match get_user_by_username db username with
      | none => .error credentials_exception
      | some user => .ok user

/-- The error `get_current_active_user` raises for a deactivated account
(src/app/auth.py, line 79): status 400, no challenge header. -/
def inactive_user_error : HTTPError :=
  ⟨400, "Inactive user", []⟩

/-- `get_current_active_user` (src/app/auth.py, lines 77-80). -/
def get_current_active_user (secret : String) (now : Nat) (db : Store)
    (token : JWT) : Except HTTPError UserRec :=
  match get_current_user secret now db token with
  | .error e => .error e
  | .ok current_user =>
    if current_user.is_active then .ok current_user
    else .error inactive_user_error

/-- The 403 raised by `check_team_access` (src/app/auth.py, line 84). -/
def access_denied : HTTPError :=
  ⟨403, "Access denied: You can only access your own team\x27s data", []⟩

/-- `check_team_access` (src/app/auth.py, lines 82-84): raises the 403
unless the caller's `team_id` equals the resource team id exactly. -/
def check_team_access (user : UserRec) (team_id : String) : Except HTTPError Unit :=
  if user.team_id ≠ some team_id then .error access_denied else .ok ()

/-- The 401 raised by the `/token` route on authentication failure
(src/app/main.py, lines 84-88). -/
def incorrect_credentials : HTTPError :=
  ⟨401, "Incorrect username or password", [("WWW-Authenticate", "Bearer")]⟩

/-- A FastAPI response to an exception no handler recovers. -/
def internal_server_error : HTTPError :=
  ⟨500, "Internal Server Error", []⟩

/-- The body of a successful `/token` response (src/app/schemas.py,
lines 66-68). -/
structure TokenResponse where
  access_token : JWT
  token_type : String
  deriving Repr, DecidableEq

/-- `login_user`, route `POST /token` (src/app/main.py, lines 80-91):
authenticate, then issue a token for the user's username with an
explicitly supplied 30-minute expiry. -/
def login_user (secret : String) (now : Nat)
    (bcryptCheck : String → String → Bool) (db : Store)
    (username password : String) : Except HTTPError TokenResponse :=
  match authenticate_user bcryptCheck db username password with
  | .error _ => .error internal_server_error
  | .ok none => .error incorrect_credentials
  | .ok (some user) =>
    let access_token_expires := ACCESS_TOKEN_EXPIRE_MINUTES * 60
    .ok ⟨create_access_token secret now (some user.username)
          (some access_token_expires), "bearer"⟩

/-- The request payload `TeamComponentCreate` (src/app/schemas.py,
lines 28-38). -/
structure TeamComponentCreate where
  team_id : String
  public_component_id : Option String
  name : String
  vendor : String
  quantity : Int
  location : Option String
  notes : Option String
  added_by : Option String
  image_url : Option String
  cad_file_url : Option String
  deriving Repr, DecidableEq

/-- The request payload `TeamComponentUpdate` (src/app/schemas.py,
lines 40-48): every field optional. -/
structure TeamComponentUpdate where
  name : Option String
  vendor : Option String
  quantity : Option Int
  location : Option String
  notes : Option String
  added_by : Option String
  image_url : Option String
  cad_file_url : Option String
  deriving Repr, DecidableEq

/-- True when every field of the update payload is `None`, i.e. the
filtered `update_data` dict of `crud.update_team_component` is empty. -/
def TeamComponentUpdate.isAllNone (u : TeamComponentUpdate) : Bool :=
  u.name.isNone && u.vendor.isNone && u.quantity.isNone && u.location.isNone &&
    u.notes.isNone && u.added_by.isNone && u.image_url.isNone &&
    u.cad_file_url.isNone

/-- Overwrite exactly the fields present in the filtered `update_data`. -/
def applyTeamComponentUpdate (c : TeamComponent) (u : TeamComponentUpdate) :
    TeamComponent :=
  { c with
    name := u.name.getD c.name
    vendor := u.vendor.getD c.vendor
    quantity := u.quantity.getD c.quantity
    location := match u.location with | some v => some v | none => c.location
    notes := match u.notes with | some v => some v | none => c.notes
    added_by := match u.added_by with | some v => some v | none => c.added_by
    image_url := match u.image_url with | some v => some v | none => c.image_url
    cad_file_url :=
      match u.cad_file_url with | some v => some v | none => c.cad_file_url }

/-- `crud.get_team_component` (src/app/crud.py, lines 79-81): `fetch_one`
on `team_components` by primary key. -/
def crud_get_team_component (db : Store) (component_id : Nat) :
    Option TeamComponent :=
  db.team_components.find? (fun c => c.id == component_id)

/-- `crud.get_team_components` (src/app/crud.py, lines 83-85). -/
def crud_get_team_components (db : Store) (team_id : String) :
    List TeamComponent :=
  db.team_components.filter (fun c => c.team_id == team_id)

/-- `crud.create_team_component` (src/app/crud.py, lines 75-77): insert a
row with the next autoincrement id and return that id. -/
def crud_create_team_component (db : Store) (c : TeamComponentCreate) :
    Store × Nat :=
  let new_id := db.team_components.foldl (fun m x => max m x.id) 0 + 1
  ({ db with
      team_components := db.team_components ++
        [⟨new_id, c.team_id, c.public_component_id, c.name, c.vendor,
          c.quantity, c.location, c.notes, c.added_by, c.image_url,
          c.cad_file_url⟩] },
    new_id)

/-- `crud.update_team_component` (src/app/crud.py, lines 87-97): returns
`false` when the filtered update dict is empty, else applies the update
to the matching row and reports whether any row matched. -/
def crud_update_team_component (db : Store) (component_id : Nat)
    (u : TeamComponentUpdate) : Store × Bool :=
  if u.isAllNone then (db, false)
  else
    ({ db with
        team_components := db.team_components.map (fun c =>
          if c.id == component_id then applyTeamComponentUpdate c u else c) },
      db.team_components.any (fun c => c.id == component_id))

/-- `crud.delete_team_component` (src/app/crud.py, lines 99-102): delete
by primary key; the result reports whether a row was removed. -/
def crud_delete_team_component (db : Store) (component_id : Nat) :
    Store × Bool :=
  let remaining := db.team_components.filter (fun c => c.id != component_id)
  ({ db with team_components := remaining },
    remaining.length < db.team_components.length)

/-- The 404 of the team-component routes (src/app/main.py, line 182). -/
def team_component_not_found : HTTPError :=
  ⟨404, "Team component not found", []⟩

/-- The 400 of the update route when no field is set (src/app/main.py,
line 195). -/
def no_valid_fields : HTTPError :=
  ⟨400, "No valid fields to update", []⟩

/-- The 500 of the delete route (src/app/main.py, line 207). -/
def delete_failed : HTTPError :=
  ⟨500, "Failed to delete team component", []⟩

/-- `create_team_component`, route `POST /team-components/`
(src/app/main.py, lines 161-169): ownership check against the payload's
`team_id` before the insert. `current_user` is the user resolved by the
`get_current_active_user` dependency. -/
def create_team_component_route (db : Store) (current_user : UserRec)
    (component : TeamComponentCreate) : Except HTTPError (Store × Nat) :=
  match check_team_access current_user component.team_id with
  | .error e => .error e
  | .ok _ => .ok (crud_create_team_component db component)

/-- `get_team_component`, route `GET /team-components/id`
(src/app/main.py, lines 178-185): existence check first, then the
ownership check against the found row's `team_id`. -/
def get_team_component_route (db : Store) (current_user : UserRec)
    (component_id : Nat) : Except HTTPError TeamComponent :=
  match crud_get_team_component db component_id with
  | none => .error team_component_not_found
  | some component =>
    match check_team_access current_user component.team_id with
    | .error e => .error e
    | .ok _ => .ok component

/-- `update_team_component`, route `PUT /team-components/id`
(src/app/main.py, lines 187-197). -/
def update_team_component_route (db : Store) (current_user : UserRec)
    (component_id : Nat) (component : TeamComponentUpdate) :
    Except HTTPError (Store × String) :=
  match crud_get_team_component db component_id with
  | none => .error team_component_not_found
  | some existing_component =>
    match check_team_access current_user existing_component.team_id with
    | .error e => .error e
    | .ok _ =>
      let result := crud_update_team_component db component_id component
      if result.2 then .ok (result.1, "Team component updated successfully")
      else .error no_valid_fields

/-- `delete_team_component`, route `DELETE /team-components/id`
(src/app/main.py, lines 199-209). -/
def delete_team_component_route (db : Store) (current_user : UserRec)
    (component_id : Nat) : Except HTTPError (Store × String) :=
  match crud_get_team_component db component_id with
  | none => .error team_component_not_found
  | some existing_component =>
    match check_team_access current_user existing_component.team_id with
    | .error e => .error e
    | .ok _ =>
      let result := crud_delete_team_component db component_id
      if result.2 then .ok (result.1, "Team component deleted successfully")
      else .error delete_failed

/-- The body returned by `crud.get_team_inventory_summary`
(src/app/crud.py, lines 112-123). -/
structure InventorySummary where
  team_id : String
  total_items : Int
  unique_components : Nat
  deriving Repr, DecidableEq

/-- `crud.get_team_inventory_summary` (src/app/crud.py, lines 112-123):
all of the team's rows, summed quantities and row count. -/
def crud_get_team_inventory_summary (db : Store) (team_id : String) :
    InventorySummary :=
  let components := db.team_components.filter (fun c => c.team_id == team_id)
  ⟨team_id, (components.map (fun c => c.quantity)).sum, components.length⟩

/-- `get_team_inventory_summary`, route `GET /teams/id/inventory/summary`
(src/app/main.py, lines 276-278): the handler takes only the path
parameter — it declares no authentication dependency and performs no
`check_team_access` — and returns the summary directly. -/
def get_team_inventory_summary_route (db : Store) (team_id : String) :
    InventorySummary :=
  crud_get_team_inventory_summary db team_id

/-! Concrete fixtures used by witnesses and counterexamples. -/

/-- A well-formed bcrypt hash string (carries the `$2b$` identifier). -/
def aliceHash : String := "$2b$12$abcdefghijklmnopqrstuv"

/-- A concrete bcrypt checker: accepts exactly the pair of alice's
password and alice's stored hash. -/
def demoBcryptCheck : String → String → Bool :=
  fun plain hashed => plain == "secret1" && hashed == aliceHash

/-- An active user on team `teamA`. -/
def alice : UserRec :=
  ⟨1, "alice", "alice@x.com", aliceHash, some "teamA", "member", true⟩

/-- The same account after deactivation. -/
def aliceInactive : UserRec := { alice with is_active := false }

/-- A component owned by `teamB`. -/
def bobComponent : TeamComponent :=
  ⟨7, "teamB", none, "motor", "vexpro", 5, none, none, none, none, none⟩

/-- Store with active alice and teamB's component. -/
def demoStore : Store := ⟨[alice], [bobComponent]⟩

/-- Store after alice's account was deactivated. -/
def demoStoreInactive : Store := ⟨[aliceInactive], [bobComponent]⟩

/-- A token issued for alice at time 0 with the login flow's 30-minute
expiry, signed with the server secret. -/
def aliceToken : JWT :=
  create_access_token "server-secret" 0 (some "alice") (some (30 * 60))

/-- A token for alice signed with the wrong key. -/
def forgedToken : JWT :=
  ⟨⟨some "alice", 100000⟩, "other-secret"⟩

/-! Helper lemmas about the login flow, shared by several theorems. -/

/-- An unknown username makes `/token` answer `incorrect_credentials`. -/
theorem login_user_of_unknown_username (secret : String) (now : Nat)
    (bcryptCheck : String → String → Bool) (db : Store)
    (username password : String)
    (h : get_user_by_username db username = none) :
    login_user secret now bcryptCheck db username password =
      .error incorrect_credentials := by
  unfold login_user authenticate_user
  rw [h]

/-- A failed password check makes `/token` answer `incorrect_credentials`. -/
theorem login_user_of_wrong_password (secret : String) (now : Nat)
    (bcryptCheck : String → String → Bool) (db : Store)
    (username password : String) (u : UserRec)
    (hu : get_user_by_username db username = some u)
    (hv : verify_password bcryptCheck password u.hashed_password = .ok false) :
    login_user secret now bcryptCheck db username password =
      .error incorrect_credentials := by
  unfold login_user authenticate_user
  rw [hu]
  simp [hv]

/-- An exception out of `verify_password` escapes the route unhandled. -/
theorem login_user_of_verify_error (secret : String) (now : Nat)
    (bcryptCheck : String → String → Bool) (db : Store)
    (username password : String) (u : UserRec) (e : PasslibError)
    (hu : get_user_by_username db username = some u)
    (hv : verify_password bcryptCheck password u.hashed_password = .error e) :
    login_user secret now bcryptCheck db username password =
      .error internal_server_error := by
  unfold login_user authenticate_user
  rw [hu]
  simp [hv]

/-- A successful password check issues a token for the username with the
explicit 30-minute expiry; `is_active` is nowhere consulted. -/
theorem login_user_of_success (secret : String) (now : Nat)
    (bcryptCheck : String → String → Bool) (db : Store)
    (username password : String) (u : UserRec)
    (hu : get_user_by_username db username = some u)
    (hv : verify_password bcryptCheck password u.hashed_password = .ok true) :
    login_user secret now bcryptCheck db username password =
      .ok ⟨create_access_token secret now (some u.username)
            (some (ACCESS_TOKEN_EXPIRE_MINUTES * 60)), "bearer"⟩ := by
  unfold login_user authenticate_user
  rw [hu]
  simp [hv]

/-! Claim theorems. -/

/-- C1, evaluated at the failing input: the inventory-summary route takes
only the store and the path parameter — it has no caller argument, hence
no team-ownership check — and hands out the full summary of a team the
caller need not belong to. -/
theorem c1_summary_route_lacks_access_check :
    get_team_inventory_summary_route demoStore "teamB" = ⟨"teamB", 5, 1⟩ := by
  decide

/-- C2, counterexample: replaying the still-unexpired token of the
deactivated account yields the 400 "Inactive user" error with no
challenge header, while a forged token yields the fixed 401; the two
outcomes differ in status, detail and headers, so the claimed
"same fixed-shape error" is false. -/
theorem c2_counterexample :
    get_current_active_user "server-secret" 0 demoStoreInactive aliceToken =
      .error inactive_user_error
    ∧ get_current_active_user "server-secret" 0 demoStoreInactive forgedToken =
        .error credentials_exception
    ∧ inactive_user_error.status_code ≠ credentials_exception.status_code
    ∧ inactive_user_error.headers = [] := by
  decide

/-- C2, amended: a valid token whose account has been deactivated is
rejected, but with the distinct 400 "Inactive user" error (no challenge
header), not the fixed-shape 401 used for signature failure, expiry, or
unknown subject. -/
theorem c2_inactive_account_distinct_error (secret : String) (now : Nat)
    (db : Store) (token : JWT) (u : UserRec)
    (hok : get_current_user secret now db token = .ok u)
    (hinactive : u.is_active = false) :
    get_current_active_user secret now db token = .error inactive_user_error
    ∧ inactive_user_error ≠ credentials_exception
    ∧ inactive_user_error.status_code = 400
    ∧ inactive_user_error.headers = [] := by
  refine ⟨?_, by decide, rfl, rfl⟩
  unfold get_current_active_user
  rw [hok]
  simp [hinactive]

/-- C2, witness. -/
theorem c2_witness :
    get_current_active_user "server-secret" 0 demoStoreInactive aliceToken =
      .error inactive_user_error
    ∧ inactive_user_error ≠ credentials_exception
    ∧ inactive_user_error.status_code = 400
    ∧ inactive_user_error.headers = [] :=
  c2_inactive_account_distinct_error "server-secret" 0 demoStoreInactive
    aliceToken aliceInactive (by decide) (by decide)

/-- C3: `check_team_access` succeeds exactly when the caller team id
equals the resource team id as a whole string; a `none` team id always
fails, the role field is never consulted, and the comparison is
case-sensitive. -/
theorem c3_check_team_access_exact (u : UserRec) (t : String) :
    (check_team_access u t = .ok () ↔ u.team_id = some t)
    ∧ check_team_access { u with team_id := none } t = .error access_denied
    ∧ (∀ r, check_team_access { u with role := r } t = check_team_access u t)
    ∧ check_team_access { u with team_id := some "TeamA" } "teama" =
        .error access_denied := by
  refine ⟨?_, rfl, fun r => rfl, rfl⟩
  unfold check_team_access
  split
  · simp_all
  · simp_all

/-- C3, witness. -/
theorem c3_witness :
    (check_team_access alice "teamA" = .ok () ↔ alice.team_id = some "teamA")
    ∧ check_team_access { alice with team_id := none } "teamA" =
        .error access_denied :=
  ⟨(c3_check_team_access_exact alice "teamA").1,
   (c3_check_team_access_exact alice "teamA").2.1⟩

/-- C4: token validation fails exactly when the signature does not
verify, or the expiry has passed, or the subject claim is absent, or the
subject resolves to no user row; and every failure is the one fixed
`credentials_exception` (401, fixed detail, Bearer challenge header). -/
theorem c4_validation_failure_causes (secret : String) (now : Nat)
    (db : Store) (token : JWT) :
    ((∃ u, get_current_user secret now db token = .ok u) ↔
      (token.signedWith = secret ∧ now ≤ token.claims.exp ∧
        ∃ s, token.claims.sub = some s ∧ (get_user_by_username db s).isSome))
    ∧ ∀ e, get_current_user secret now db token = .error e →
        e = credentials_exception := by
  unfold get_current_user jwtDecode
  by_cases hs : token.signedWith = secret
  · by_cases he : now ≤ token.claims.exp
    · cases hsub : token.claims.sub with
      | none => simp [hs, he, hsub, Nat.not_lt.mpr he]
      | some s =>
        cases hu : get_user_by_username db s with
        | none => simp [hs, he, hsub, hu, Nat.not_lt.mpr he]
        | some u => simp [hs, he, hsub, hu, Nat.not_lt.mpr he]
    · simp [hs, he, Nat.not_le.mp he]
  · simp [hs]

/-- C4, witness. -/
theorem c4_witness :
    get_current_user "server-secret" 0 demoStore forgedToken =
      .error credentials_exception
    ∧ credentials_exception = credentials_exception :=
  ⟨by decide,
   (c4_validation_failure_causes "server-secret" 0 demoStore forgedToken).2
     credentials_exception (by decide)⟩

/-- C5: a correct username with a wrong password and a nonexistent
username both produce the identical `incorrect_credentials` response —
same status, same headers, same body. -/
theorem c5_login_error_indistinguishable (secret : String) (now : Nat)
    (bcryptCheck : String → String → Bool) (db : Store)
    (username1 password1 username2 password2 : String) (u : UserRec)
    (hfound : get_user_by_username db username1 = some u)
    (hwrong : verify_password bcryptCheck password1 u.hashed_password = .ok false)
    (hunknown : get_user_by_username db username2 = none) :
    login_user secret now bcryptCheck db username1 password1 =
      .error incorrect_credentials
    ∧ login_user secret now bcryptCheck db username2 password2 =
        .error incorrect_credentials
    ∧ login_user secret now bcryptCheck db username1 password1 =
        login_user secret now bcryptCheck db username2 password2 := by
  have h1 := login_user_of_wrong_password secret now bcryptCheck db
    username1 password1 u hfound hwrong
  have h2 := login_user_of_unknown_username secret now bcryptCheck db
    username2 password2 hunknown
  exact ⟨h1, h2, by rw [h1, h2]⟩

/-- C5, witness. -/
theorem c5_witness :
    login_user "server-secret" 0 demoBcryptCheck demoStore "alice" "wrongpw" =
      .error incorrect_credentials
    ∧ login_user "server-secret" 0 demoBcryptCheck demoStore "nobody" "any" =
        .error incorrect_credentials
    ∧ login_user "server-secret" 0 demoBcryptCheck demoStore "alice" "wrongpw" =
        login_user "server-secret" 0 demoBcryptCheck demoStore "nobody" "any" :=
  c5_login_error_indistinguishable "server-secret" 0 demoBcryptCheck demoStore
    "alice" "wrongpw" "nobody" "any" alice (by decide) (by decide) (by decide)

/-- C6, counterexample: the claimed "fails at or after issue_time + T"
is false of the code at two concrete inputs. First, jose rejects only
when `exp < now`, so a token issued at time 0 with ttl 1800 still
validates at the instant 1800 = issue_time + T exactly. Second, the
truthiness guard gives a supplied zero ttl the 15-minute default
expiry, so a token issued at time 1000 with ttl 0 still validates at
time 1500, well after issue_time + 0. -/
theorem c6_counterexample :
    (jwtDecode (create_access_token "server-secret" 0 (some "alice")
        (some 1800)) "server-secret" 1800).isOk = true
    ∧ 0 + 1800 ≤ 1800
    ∧ (jwtDecode (create_access_token "server-secret" 1000 (some "alice")
        (some 0)) "server-secret" 1500).isOk = true
    ∧ 1000 + 0 ≤ 1500 := by
  decide

/-- C6, amended: a token issued with a nonzero ttl validates at any
instant at or before issue time + ttl — including the boundary instant
itself, since the decode call rejects only when `exp < now` — and fails
at every instant strictly after it, both at the decode call itself and
through the full `get_current_user` validation; a supplied zero ttl is
falsy and yields the 15-minute default expiry instead. -/
theorem c6_ttl_boundary (secret : String) (now ttl t : Nat)
    (sub : Option String) (db : Store) (username : String) (u : UserRec)
    (httl : ttl ≠ 0)
    (huser : get_user_by_username db username = some u) :
    ((jwtDecode (create_access_token secret now sub (some ttl)) secret t).isOk ↔
      t ≤ now + ttl)
    ∧ (get_current_user secret t db
          (create_access_token secret now (some username) (some ttl)) = .ok u ↔
        t ≤ now + ttl)
    ∧ (create_access_token secret now sub (some 0)).claims.exp =
        now + 15 * 60 := by
  refine ⟨?_, ?_, rfl⟩
  · by_cases ht : t ≤ now + ttl
    · unfold create_access_token jwtEncode jwtDecode
      simp [httl, ht, Nat.not_lt.mpr ht, Except.isOk, Except.toBool]
    · unfold create_access_token jwtEncode jwtDecode
      simp [httl, ht, Nat.not_le.mp ht, Except.isOk, Except.toBool]
  · by_cases ht : t ≤ now + ttl
    · unfold get_current_user create_access_token jwtEncode jwtDecode
      simp [httl, ht, Nat.not_lt.mpr ht, huser]
    · unfold get_current_user create_access_token jwtEncode jwtDecode
      simp [httl, ht, Nat.not_le.mp ht, huser]

/-- C6, witness: a 30-minute token issued at time 0 validates at the
boundary instant 1800; the hypotheses are discharged concretely. -/
theorem c6_witness :
    ((jwtDecode (create_access_token "server-secret" 0 (some "alice")
        (some 1800)) "server-secret" 1800).isOk ↔ 1800 ≤ 0 + 1800)
    ∧ (get_current_user "server-secret" 1800 demoStore
          (create_access_token "server-secret" 0 (some "alice") (some 1800)) =
            .ok alice ↔ 1800 ≤ 0 + 1800)
    ∧ (create_access_token "server-secret" 0 (some "alice")
        (some 0)).claims.exp = 0 + 15 * 60 :=
  c6_ttl_boundary "server-secret" 0 1800 1800 (some "alice") demoStore "alice"
    alice (by decide) (by decide)

/-- C7, counterexample: on a malformed hash string the verify operation
raises `UnknownHashError` — it neither returns false nor any boolean, so
the claimed "returns false and never throws" is false. -/
theorem c7_counterexample :
    verify_password demoBcryptCheck "anything" "nothash" =
      .error PasslibError.unknownHash
    ∧ verify_password demoBcryptCheck "anything" "nothash" ≠ .ok false
    ∧ verify_password demoBcryptCheck "anything" "nothash" ≠ .ok true := by
  decide

/-- C7, amended: for every plaintext and every hash string carrying no
bcrypt identifier, the verify operation raises `UnknownHashError`, which
propagates to the caller; it never returns a boolean for such a hash. -/
theorem c7_malformed_hash_raises (bcryptCheck : String → String → Bool)
    (plain hashed : String) (hmal : bcryptIdentify hashed = false) :
    verify_password bcryptCheck plain hashed = .error PasslibError.unknownHash
    ∧ ∀ b, verify_password bcryptCheck plain hashed ≠ .ok b := by
  unfold verify_password cryptContextVerify
  simp [hmal]

/-- C7, witness. -/
theorem c7_witness :
    verify_password demoBcryptCheck "pw" "md5oldhash" =
      .error PasslibError.unknownHash
    ∧ verify_password demoBcryptCheck "pw" "md5oldhash" ≠ .ok false :=
  ⟨(c7_malformed_hash_raises demoBcryptCheck "pw" "md5oldhash" (by decide)).1,
   (c7_malformed_hash_raises demoBcryptCheck "pw" "md5oldhash" (by decide)).2
     false⟩

/-- C8, counterexample: the expiry guard is a truthiness test, so a
caller who does supply an expiry argument — a zero timedelta — still
lands on the 15-minute default; the default is therefore not reachable
only when the argument is omitted. -/
theorem c8_counterexample :
    (create_access_token "server-secret" 1000 (some "alice")
        (some 0)).claims.exp = 1000 + 15 * 60
    ∧ (some 0 : Option Nat) ≠ (none : Option Nat) := by
  decide

/-- C8, amended: the 30-minute constant exists and the login flow always
passes it explicitly; the separate 15-minute default applies when the
expiry argument is omitted or is a falsy (zero) timedelta, and any
nonzero supplied expiry is honoured. -/
theorem c8_expiry_defaults (secret : String) (now d : Nat)
    (sub : Option String) (hd : d ≠ 0) :
    ACCESS_TOKEN_EXPIRE_MINUTES = 30
    ∧ (create_access_token secret now sub none).claims.exp = now + 15 * 60
    ∧ (create_access_token secret now sub (some 0)).claims.exp = now + 15 * 60
    ∧ (create_access_token secret now sub (some d)).claims.exp = now + d
    ∧ ∀ (bcryptCheck : String → String → Bool) (db : Store)
        (username password : String) (u : UserRec),
        get_user_by_username db username = some u →
        verify_password bcryptCheck password u.hashed_password = .ok true →
        login_user secret now bcryptCheck db username password =
          .ok ⟨create_access_token secret now (some u.username)
                (some (ACCESS_TOKEN_EXPIRE_MINUTES * 60)), "bearer"⟩ := by
  refine ⟨rfl, rfl, rfl, ?_, ?_⟩
  · unfold create_access_token jwtEncode
    simp [hd]
  · intro bcryptCheck db username password u hu hv
    exact login_user_of_success secret now bcryptCheck db username password u
      hu hv

/-- C8, witness: a supplied 30-minute expiry is honoured, and the login
flow issues exactly that token. -/
theorem c8_witness :
    (create_access_token "server-secret" 0 (some "alice")
        (some 1800)).claims.exp = 0 + 1800
    ∧ login_user "server-secret" 0 demoBcryptCheck demoStore "alice"
        "secret1" =
      .ok ⟨create_access_token "server-secret" 0 (some alice.username)
            (some (ACCESS_TOKEN_EXPIRE_MINUTES * 60)), "bearer"⟩ :=
  ⟨(c8_expiry_defaults "server-secret" 0 1800 (some "alice")
      (by decide)).2.2.2.1,
   (c8_expiry_defaults "server-secret" 0 1800 (some "alice")
      (by decide)).2.2.2.2 demoBcryptCheck demoStore "alice" "secret1" alice
     (by decide) (by decide)⟩

/-- C9: login fails with `incorrect_credentials` exactly when the
username resolves to no user or password verification returns false; on
success a token is issued for the username with the 30-minute expiry,
with no condition on `is_active` anywhere. -/
theorem c9_login_ignores_is_active (secret : String) (now : Nat)
    (bcryptCheck : String → String → Bool) (db : Store)
    (username password : String) :
    (login_user secret now bcryptCheck db username password =
        .error incorrect_credentials ↔
      (get_user_by_username db username = none ∨
        ∃ u, get_user_by_username db username = some u ∧
          verify_password bcryptCheck password u.hashed_password = .ok false))
    ∧ ∀ u, get_user_by_username db username = some u →
        verify_password bcryptCheck password u.hashed_password = .ok true →
        login_user secret now bcryptCheck db username password =
          .ok ⟨create_access_token secret now (some u.username)
                (some (ACCESS_TOKEN_EXPIRE_MINUTES * 60)), "bearer"⟩ := by
  constructor
  · constructor
    · intro h
      cases hu : get_user_by_username db username with
      | none => exact Or.inl rfl
      | some u =>
        refine Or.inr ⟨u, rfl, ?_⟩
        cases hv : verify_password bcryptCheck password u.hashed_password with
        | error e =>
          rw [login_user_of_verify_error secret now bcryptCheck db username
            password u e hu hv] at h
          exact absurd h (by decide)
        | ok b =>
          cases b with
          | false => rfl
          | true =>
            rw [login_user_of_success secret now bcryptCheck db username
              password u hu hv] at h
            exact absurd h (by simp)
    · rintro (h | ⟨u, hu, hv⟩)
      · exact login_user_of_unknown_username secret now bcryptCheck db
          username password h
      · exact login_user_of_wrong_password secret now bcryptCheck db
          username password u hu hv
  · intro u hu hv
    exact login_user_of_success secret now bcryptCheck db username password u
      hu hv

/-- C9, witness: the deactivated account with correct credentials is
still issued a fresh token. -/
theorem c9_witness :
    login_user "server-secret" 0 demoBcryptCheck demoStoreInactive "alice"
      "secret1" =
      .ok ⟨create_access_token "server-secret" 0 (some aliceInactive.username)
            (some (ACCESS_TOKEN_EXPIRE_MINUTES * 60)), "bearer"⟩
    ∧ aliceInactive.is_active = false :=
  ⟨(c9_login_ignores_is_active "server-secret" 0 demoBcryptCheck
      demoStoreInactive "alice" "secret1").2 aliceInactive (by decide)
      (by decide),
   by decide⟩

/-- C10: the single-component routes check existence before ownership —
a missing id yields the 404 while an existing id owned by another team
yields the 403, for fetch, update and delete alike. -/
theorem c10_not_found_before_forbidden (db : Store) (current_user : UserRec)
    (component_id : Nat) :
    (crud_get_team_component db component_id = none →
      get_team_component_route db current_user component_id =
          .error team_component_not_found
      ∧ (∀ upd, update_team_component_route db current_user component_id upd =
          .error team_component_not_found)
      ∧ delete_team_component_route db current_user component_id =
          .error team_component_not_found)
    ∧ ∀ c, crud_get_team_component db component_id = some c →
        current_user.team_id ≠ some c.team_id →
        get_team_component_route db current_user component_id =
            .error access_denied
        ∧ (∀ upd, update_team_component_route db current_user component_id
            upd = .error access_denied)
        ∧ delete_team_component_route db current_user component_id =
            .error access_denied := by
  constructor
  · intro h
    refine ⟨?_, fun upd => ?_, ?_⟩
    · simp [get_team_component_route, h]
    · simp [update_team_component_route, h]
    · simp [delete_team_component_route, h]
  · intro c hc hne
    refine ⟨?_, fun upd => ?_, ?_⟩
    · simp [get_team_component_route, hc, check_team_access, hne]
    · simp [update_team_component_route, hc, check_team_access, hne]
    · simp [delete_team_component_route, hc, check_team_access, hne]

/-- C10, witness: a caller from `teamA` gets the 404 for a nonexistent id
and the 403 for an existing id owned by `teamB`. -/
theorem c10_witness :
    get_team_component_route demoStore alice 99 =
      .error team_component_not_found
    ∧ get_team_component_route demoStore alice 7 = .error access_denied
    ∧ delete_team_component_route demoStore alice 7 = .error access_denied :=
  ⟨((c10_not_found_before_forbidden demoStore alice 99).1 (by decide)).1,
   ((c10_not_found_before_forbidden demoStore alice 7).2 bobComponent
      (by decide) (by decide)).1,
   ((c10_not_found_before_forbidden demoStore alice 7).2 bobComponent
      (by decide) (by decide)).2.2⟩

end FRCApi
